import Mathlib

/-!
Verification of QPanda3D's input-translation and pixel-bridge logic.

Shallow embedding of `QPanda3D/QPanda3DWidget.py` and
`QPanda3D/QPanda3D_Modifiers_Translation.py`: the modifier-prefix
resolver, the event handlers, the frame-pump tick guard, the resize
scaling, and the per-repaint pixel transfer (reshape, transpose,
rot90, image reuse, memmove, painter begin/end).

Python dictionaries are embedded as association lists in declaration
order; a failed dictionary lookup (KeyError) and NotImplementedError
are embedded as `Except` errors.  Machine pixels are bytes modelled as
`Nat`; Qt modifier flags keep their numeric values and are combined
with `Nat.land` / `Nat.lor` exactly as the Python `&` test does.
-/

namespace QPanda3D

/-- Qt.KeyboardModifier flag values used by PyQt6. -/
def NoModifier : Nat := 0x00000000

def ShiftModifier : Nat := 0x02000000

def ControlModifier : Nat := 0x04000000

def AltModifier : Nat := 0x08000000

def MetaModifier : Nat := 0x10000000

def KeypadModifier : Nat := 0x20000000

def GroupSwitchModifier : Nat := 0x40000000

/-- Embedding of the dictionary `QPanda3D_Modifier_translation` from
`QPanda3D_Modifiers_Translation.py`, as an association list in the
dictionary's declaration order (Python dicts iterate in insertion
order).  `none` embeds Python `None` (the NoModifier entry). -/
def QPanda3D_Modifier_translation : List (Nat × Option String) :=
  [(NoModifier, none),
   (ShiftModifier, some "shift"),
   (ControlModifier, some "control"),
   (AltModifier, some "alt"),
   (MetaModifier, some "unknown"),
   (KeypadModifier, some "unknown"),
   (GroupSwitchModifier, some "unknown")]

/-- The runtime type of the Qt event reaching the modifier resolver:
`QKeyEvent` (with `event.key()`), `QMouseEvent` (with `event.button()`),
`QWheelEvent`, or any other type.  Every variant carries the value of
`event.modifiers()` as a Qt flag bitmask. -/
inductive QEvent where
  | keyEvent (key : Nat) (mods : Nat)
  | mouseEvent (button : Nat) (mods : Nat)
  | wheelEvent (mods : Nat)
  | otherEvent (mods : Nat)
deriving DecidableEq, Repr

/-- `event.modifiers()`. -/
def QEvent.modifiers : QEvent → Nat
  | QEvent.keyEvent _ m => m
  | QEvent.mouseEvent _ m => m
  | QEvent.wheelEvent m => m
  | QEvent.otherEvent m => m

/-- The loop body of `get_panda_key_modifiers` over the fetched value
`qt_mods = event.modifiers()`: walk the translation table in
declaration order and append the mapped token (possibly `None`)
whenever `(qt_mods & qt_mod) == qt_mod`. -/
def panda_mods_of (qt_mods : Nat) : List (Option String) :=
  QPanda3D_Modifier_translation.foldl
    (fun acc p => if Nat.land qt_mods p.1 == p.1 then acc ++ [p.2] else acc) []

/-- Embedding of `get_panda_key_modifiers`. -/
def get_panda_key_modifiers (e : QEvent) : List (Option String) :=
  panda_mods_of e.modifiers

/-- Python exceptions that can escape the translation helpers:
`KeyError` from a failed dictionary lookup (carrying the missing key)
and the `NotImplementedError("Unknown event type")` raised for an
unrecognized event type. -/
inductive PyError where
  | keyError (k : Nat)
  | notImplementedError
deriving DecidableEq, Repr

/-- Embedding of `get_panda_key_modifiers_prefix` (the modifier-prefix
resolver).  `keyT` and `buttonT` embed the dictionaries
`QPanda3D_Key_translation` and `QPanda3D_Button_translation` (their
module files are outside the translation-unit sources, so they are
kept abstract as lookup functions; `none` is a missing entry, whose
Python lookup raises `KeyError`).  Mirrors the source line by line:
filter out `None`, join with "-", resolve the base key by the event's
runtime type, remove the base key from the list if present and rejoin,
collapse an exact "-" to "", and append a trailing "-" when
non-empty. -/
def get_panda_key_modifiers_pfx (keyT buttonT : Nat → Option String) (e : QEvent) :
    Except PyError String :=
  let mods := (get_panda_key_modifiers e).filterMap id
  let pfx0 := String.intercalate "-" mods
  let keyRes : Except PyError String :=
    match e with
    | QEvent.mouseEvent b _ =>
      match buttonT b with
      | some s => Except.ok s
      | none => Except.error (PyError.keyError b)
    | QEvent.keyEvent q _ =>
      match keyT q with
      | some s => Except.ok s
      | none => Except.error (PyError.keyError q)
    | QEvent.wheelEvent _ => Except.ok "wheel"
    | QEvent.otherEvent _ => Except.error PyError.notImplementedError
  match keyRes with
  | Except.error err => Except.error err
  | Except.ok key =>
    let pfx1 := if key ∈ mods then String.intercalate "-" (mods.erase key) else pfx0
    let pfx2 := if pfx1 = "-" then "" else pfx1
    Except.ok (if pfx2 ≠ "" then pfx2 ++ "-" else pfx2)

/-- The Qt modifier bitmask holding exactly the subset of
{shift, control, alt} selected by the three flags. -/
def qtMask (hs hc ha : Bool) : Nat :=
  Nat.lor (if hs then ShiftModifier else 0)
    (Nat.lor (if hc then ControlModifier else 0) (if ha then AltModifier else 0))

/-- Stated from the spec's words: the tokens of the modifier subset M
of {shift, control, alt}, in table declaration order. -/
def specModifierToks (hs hc ha : Bool) : List String :=
  (if hs then ["shift"] else []) ++ (if hc then ["control"] else [])
    ++ (if ha then ["alt"] else [])

/-- Stated from the spec's words, for comparison with the resolver: the
tokens of the modifier subset in table declaration order, joined by
"-", with a trailing "-" appended when the join is non-empty. -/
def specModifierJoin (hs hc ha : Bool) : String :=
  let j := String.intercalate "-" (specModifierToks hs hc ha)
  if j = "" then "" else j ++ "-"

/-- Embedding of the try-block of `QPanda3DWidget.keyPressEvent`: the
f-string evaluates the modifier-prefix resolver first, then looks the
key up in `QPanda3D_Key_translation`; either step can raise
`KeyError`. -/
def keyPressEvent_try (keyT buttonT : Nat → Option String) (key qt_mods : Nat) :
    Except PyError String :=
  match get_panda_key_modifiers_pfx keyT buttonT (QEvent.keyEvent key qt_mods) with
  | Except.error e => Except.error e
  | Except.ok p =>
    match keyT key with
    | some t => Except.ok (p ++ t)
    | none => Except.error (PyError.keyError key)

/-- Embedding of `QPanda3DWidget.keyPressEvent`: the try-block either
sends one event name on the global messenger, or the except clause
catches the exception and prints one diagnostic entry (the fixed
message together with the exception detail); nothing propagates.
Returns (sent event names, diagnostic log entries).  The debug console
echo of the name is omitted: it is unreachable for a failing lookup
and is not the diagnostic channel. -/
def keyPressEvent (keyT buttonT : Nat → Option String) (key qt_mods : Nat) :
    List String × List (String × PyError) :=
  match keyPressEvent_try keyT buttonT key qt_mods with
  | Except.ok k => ([k], [])
  | Except.error e =>
    ([], [("Unimplemented key. Please send an issue on github to fix this problem", e)])

/-- Embedding of the try-block of `QPanda3DWidget.mouseMoveEvent`: the
event name is the literal "mouse-move"; neither a table lookup nor the
modifier resolver is invoked, so no step can raise. -/
def mouseMoveEvent_try (x y : Int) : Except PyError (String × Int × Int) :=
  Except.ok ("mouse-move", x, y)

/-- Embedding of `QPanda3DWidget.mouseMoveEvent`: the handler sends
one event carrying the cursor position payload {x, y}; the button (the
source comments it out) and the held modifiers play no part.  Returns
(sent events with payload, diagnostic log entries). -/
def mouseMoveEvent (button : Nat) (x y : Int) (qt_mods : Nat) :
    List (String × Int × Int) × List (String × PyError) :=
  match mouseMoveEvent_try x y with
  | Except.ok ev => ([ev], [])
  | Except.error e =>
    ([], [("Unimplemented button. Please send an issue on github to fix this problem", e)])

/-- The two engine-side effects a synchronizer tick can perform:
`TaskManagerGlobal.taskMgr.step()` and `self.qPanda3DWidget.update()`. -/
inductive TickAction where
  | taskMgrStep
  | widgetUpdate
deriving DecidableEq, Repr

/-- Embedding of `QPanda3DSynchronizer.tick`: the whole body is guarded
by `if self.isActive()`; an inactive tick performs nothing. -/
def tick (isActive : Bool) : List TickAction :=
  if isActive then [TickAction.taskMgrStep, TickAction.widgetUpdate] else []

/-- Embedding of `QPanda3DWidget.resizeEvent` over exact rationals:
returns the pair passed to `lens.set_film_size` (each axis scaled
independently by new/initial widget dimension) and the pair passed to
`self.panda3DWorld.buff.setSize`. -/
def resizeEvent (initFilmW initFilmH initW initH newW newH : ℚ) :
    (ℚ × ℚ) × (ℚ × ℚ) :=
  ((initFilmW * newW / initW, initFilmH * newH / initH), (newW, newH))

/-- The operations of `QPanda3DWidget.paintEvent` after a positive
`mightHaveRamImage` check, in source order. -/
inductive PaintStep where
  | getRamData
  | getSizes
  | reshapeBuf
  | reorientBuf
  | reallocImage
  | copyBytes
  | beginPaint
  | drawImage
  | endPaint
deriving DecidableEq, Repr

/-- The source order of the paint steps: buffer retrieval and sizes
(spec step 2), reshape (3), reorient (4), conditional image
(re)allocation (5), memmove byte copy (6), then painter.begin,
drawImage, painter.end. -/
def paintSteps : List PaintStep :=
  [PaintStep.getRamData, PaintStep.getSizes, PaintStep.reshapeBuf, PaintStep.reorientBuf,
   PaintStep.reallocImage, PaintStep.copyBytes, PaintStep.beginPaint, PaintStep.drawImage,
   PaintStep.endPaint]

/-- How many times `painter.begin` and `painter.end` have run. -/
structure PainterState where
  beginCount : Nat
  endCount : Nat
deriving DecidableEq, Repr

/-- The effect of one paint step on the painter: only `beginPaint` and
`endPaint` touch it. -/
def stepEffect (s : PainterState) : PaintStep → PainterState
  | PaintStep.beginPaint => { s with beginCount := s.beginCount + 1 }
  | PaintStep.endPaint => { s with endCount := s.endCount + 1 }
  | _ => s

/-- Run paint steps in order; `failAt` marks the step whose Python
counterpart raises.  The raising step performs no effect, and since
`paintEvent` installs no try/except around these lines, the remaining
steps are skipped (the exception propagates). -/
def runPaintSteps (failAt : Option PaintStep) : PainterState → List PaintStep → PainterState
  | s, [] => s
  | s, st :: rest =>
    if failAt = some st then s else runPaintSteps failAt (stepEffect s st) rest

/-- `buf.reshape((height, width, 4))` viewed as an indexing function:
row-major (C-order), so entry (i, j, k), for i < H, j < W, k < 4,
reads flat offset (i*W + j)*4 + k.  Out-of-range reads default to 0
(they do not arise at valid indices). -/
def reshape3 (data : List Nat) (H W : Nat) (i j k : Nat) : Nat :=
  data.getD ((i * W + j) * 4 + k) 0

/-- `np.transpose(buf, (1, 0, 2))` on a rank-3 indexing function. -/
def transpose102 (f : Nat → Nat → Nat → Nat) : Nat → Nat → Nat → Nat :=
  fun i j k => f j i k

/-- `np.rot90(m)` (k = 1, axes = (0, 1)) on a rank-3 indexing function
whose first two axes have shape (R, C): the result has shape (C, R)
with result[i][j] = m[j][C-1-i]. -/
def rot90 (C : Nat) (f : Nat → Nat → Nat → Nat) : Nat → Nat → Nat → Nat :=
  fun i j k => f j (C - 1 - i) k

/-- The paintEvent reorientation
`np.ascontiguousarray(np.rot90(np.transpose(buf, (1, 0, 2))))` for a
RAM image of shape (height, width, 4): the transposed array has shape
(width, height), so rot90 applies with C = height, and the result has
shape (height, width). -/
def reorient (data : List Nat) (H W : Nat) : Nat → Nat → Nat → Nat :=
  rot90 H (transpose102 (reshape3 data H W))

/-- The reoriented buffer serialized row-major, exactly as the memmove
copies it into the destination image's backing storage. -/
def reorientBytes (data : List Nat) (H W : Nat) : List Nat :=
  (List.range H).flatMap fun i =>
    (List.range W).flatMap fun j =>
      (List.range 4).map fun k => reorient data H W i j k

/-- The source texture snapshot `paintEvent` reads:
`mightHaveRamImage()`, the flat RAM image bytes from
`getRamImage().getData()`, and `getXSize()` (width) / `getYSize()`
(height). -/
structure Texture where
  mightHaveRamImage : Bool
  data : List Nat
  xSize : Nat
  ySize : Nat
deriving DecidableEq, Repr

/-- The widget's `out_image` (a QImage): its QSize, its backing-buffer
contents, and an allocation generation counter incremented each time a
fresh QImage object replaces it — reuse of the backing buffer is `gen`
staying equal. -/
structure OutImage where
  width : Nat
  height : Nat
  gen : Nat
  bytes : List Nat
deriving DecidableEq, Repr

/-- `self.out_image = QImage()` from `__init__`: the null image, whose
size is QSize(0, 0). -/
def initOutImage : OutImage :=
  { width := 0, height := 0, gen := 0, bytes := [] }

/-- Embedding of the pixel path of `QPanda3DWidget.paintEvent` when the
RAM image is available: with width = getXSize and height = getYSize,
the image is replaced by a fresh `QImage(width, height, Format_ARGB32)`
exactly when `self.out_image.size() != QSize(height, width)` — note the
swapped comparison operand in the source — and the memmove then
overwrites the backing buffer with the reoriented bytes. -/
def paintEvent (img : OutImage) (t : Texture) : OutImage :=
  if t.mightHaveRamImage then
    let width := t.xSize
    let height := t.ySize
    let img1 :=
      if ¬(img.width = height ∧ img.height = width) then
        { width := width, height := height, gen := img.gen + 1, bytes := [] }
      else img
    { img1 with bytes := reorientBytes t.data height width }
  else img

/-- A width 1 by height 2 texture, unchanged between repaints, whose
RAM image holds the unique marker byte 9 in source pixel (0, 0). -/
def tex1x2 : Texture :=
  { mightHaveRamImage := true, data := [9, 9, 9, 9, 0, 0, 0, 0], xSize := 1, ySize := 2 }

theorem get_panda_key_modifiers_qtMask (hs hc ha : Bool) (key : Nat) :
    get_panda_key_modifiers (QEvent.keyEvent key (qtMask hs hc ha)) =
      [none] ++ (if hs then [some "shift"] else []) ++ (if hc then [some "control"] else [])
        ++ (if ha then [some "alt"] else []) := by
  show panda_mods_of (qtMask hs hc ha) = _
  cases hs <;> cases hc <;> cases ha <;> decide

/-- Claim C4: for every modifier set M that is a subset of
{shift, control, alt} and every base key whose resolved token is not a
token of M, the resolver returns the tokens of M in table declaration
order joined by "-", with a trailing "-" when non-empty, and "" when M
is empty.  The base token may coincide with a modifier token outside M
(for example M = {shift} with base token "control"). -/
theorem modifier_join_matches_spec (keyT buttonT : Nat → Option String) (hs hc ha : Bool)
    (key : Nat) (k : String) (hk : keyT key = some k)
    (hkM : k ∉ specModifierToks hs hc ha) :
    get_panda_key_modifiers_pfx keyT buttonT (QEvent.keyEvent key (qtMask hs hc ha)) =
      Except.ok (specModifierJoin hs hc ha) := by
  have hm := get_panda_key_modifiers_qtMask hs hc ha key
  cases hs <;> cases hc <;> cases ha <;>
    simp_all [get_panda_key_modifiers_pfx, specModifierJoin, specModifierToks, hk] <;> decide

theorem modifier_join_matches_spec_witness :
    ((fun _ : Nat => some "control") 65 = some "control" ∧
        "control" ∉ specModifierToks true false false ∧
        get_panda_key_modifiers_pfx (fun _ => some "control") (fun _ => none)
            (QEvent.keyEvent 65 (qtMask true false false)) =
          Except.ok (specModifierJoin true false false)) ∧
      (fun _ : Nat => some "shift") 66 = some "shift" ∧
        "shift" ∉ specModifierToks false false false ∧
        get_panda_key_modifiers_pfx (fun _ => some "shift") (fun _ => none)
            (QEvent.keyEvent 66 (qtMask false false false)) =
          Except.ok (specModifierJoin false false false) :=
  ⟨⟨rfl, by decide,
      modifier_join_matches_spec (fun _ => some "control") (fun _ => none) true false false
        65 "control" rfl (by decide)⟩,
    rfl, by decide,
    modifier_join_matches_spec (fun _ => some "shift") (fun _ => none) false false false
      66 "shift" rfl (by decide)⟩

/-- Claim C5: an event whose active modifier set is exactly the one
modifier whose token is the event's own resolved base token (a
modifier key pressed alone) yields the empty modifier string — the
self token is excluded, so the dispatched name is the bare token. -/
theorem modifier_key_alone_empty (keyT buttonT : Nat → Option String) (key flag : Nat)
    (t : String)
    (hflag : (flag = ShiftModifier ∧ t = "shift") ∨ (flag = ControlModifier ∧ t = "control") ∨
      (flag = AltModifier ∧ t = "alt"))
    (hk : keyT key = some t) :
    get_panda_key_modifiers_pfx keyT buttonT (QEvent.keyEvent key flag) = Except.ok "" := by
  rcases hflag with ⟨hf, ht⟩ | ⟨hf, ht⟩ | ⟨hf, ht⟩ <;> subst hf <;> subst ht
  · have hm : get_panda_key_modifiers (QEvent.keyEvent key ShiftModifier) =
        [none, some "shift"] := by
      show panda_mods_of ShiftModifier = _
      decide
    simp [get_panda_key_modifiers_pfx, hm, hk]
    decide
  · have hm : get_panda_key_modifiers (QEvent.keyEvent key ControlModifier) =
        [none, some "control"] := by
      show panda_mods_of ControlModifier = _
      decide
    simp [get_panda_key_modifiers_pfx, hm, hk]
    decide
  · have hm : get_panda_key_modifiers (QEvent.keyEvent key AltModifier) =
        [none, some "alt"] := by
      show panda_mods_of AltModifier = _
      decide
    simp [get_panda_key_modifiers_pfx, hm, hk]
    decide

theorem modifier_key_alone_empty_witness :
    ((ControlModifier = ShiftModifier ∧ "control" = "shift") ∨
      (ControlModifier = ControlModifier ∧ "control" = "control") ∨
      (ControlModifier = AltModifier ∧ "control" = "alt")) ∧
      (fun _ : Nat => some "control") 0 = some "control" ∧
      get_panda_key_modifiers_pfx (fun _ => some "control") (fun _ => none)
        (QEvent.keyEvent 0 ControlModifier) = Except.ok "" :=
  ⟨Or.inr (Or.inl ⟨rfl, rfl⟩), rfl,
    modifier_key_alone_empty (fun _ => some "control") (fun _ => none) 0 ControlModifier
      "control" (Or.inr (Or.inl ⟨rfl, rfl⟩)) rfl⟩

/-- Claim C6: a key press whose identifier has no entry in the key map
dispatches zero events, produces exactly one diagnostic log entry, and
lets no exception propagate (the handler returns normally through the
except branch). -/
theorem unmapped_key_swallowed (keyT buttonT : Nat → Option String) (key qt_mods : Nat)
    (h : keyT key = none) :
    (keyPressEvent keyT buttonT key qt_mods).1 = [] ∧
      (keyPressEvent keyT buttonT key qt_mods).2.length = 1 := by
  simp [keyPressEvent, keyPressEvent_try, get_panda_key_modifiers_pfx, h]

theorem unmapped_key_swallowed_witness :
    (fun _ : Nat => (none : Option String)) 65 = none ∧
      ((keyPressEvent (fun _ => none) (fun _ => some "mouse1") 65 0).1 = [] ∧
        (keyPressEvent (fun _ => none) (fun _ => some "mouse1") 65 0).2.length = 1) :=
  ⟨rfl, unmapped_key_swallowed (fun _ => none) (fun _ => some "mouse1") 65 0 rfl⟩

/-- Claim C7: an event whose runtime type is none of key, mouse-button
or wheel makes the modifier resolver raise
`NotImplementedError("Unknown event type")`, which propagates out of
the call instead of returning a modifier string. -/
theorem unknown_event_type_error (keyT buttonT : Nat → Option String) (m : Nat) :
    get_panda_key_modifiers_pfx keyT buttonT (QEvent.otherEvent m) =
      Except.error PyError.notImplementedError := rfl

/-- Claim C10: a mouse-move event dispatches exactly one event, named
literally "mouse-move" with no modifier piece, carrying the cursor
position payload, for every button value and every held-modifier mask;
the modifier resolver is never consulted. -/
theorem mouse_move_dispatch (button : Nat) (x y : Int) (qt_mods : Nat) :
    mouseMoveEvent button x y qt_mods = ([("mouse-move", x, y)], []) := rfl

/-- Claim C9: a synchronizer tick delivered while the timer is not
active performs neither the task-scheduler step nor the widget repaint
request; both effects occur only on active ticks. -/
theorem tick_only_when_active :
    tick false = [] ∧ tick true = [TickAction.taskMgrStep, TickAction.widgetUpdate] :=
  ⟨rfl, rfl⟩

/-- Claim C8: on resize each lens film axis is set independently to
initial_film_dim * new_widget_dim / initial_widget_dim; with initial
film size (2.0, 1.5) and initial widget size (800, 600), resizing to
(400, 300) sets the film size to exactly (1.0, 0.75). -/
theorem resize_film_proportional :
    (∀ fw fh iw ih nw nh : ℚ,
      (resizeEvent fw fh iw ih nw nh).1 = (fw * nw / iw, fh * nh / ih)) ∧
      (resizeEvent 2 (3 / 2) 800 600 400 300).1 = (1, 3 / 4) := by
  refine ⟨fun _ _ _ _ _ _ => rfl, ?_⟩
  simp only [resizeEvent, Prod.mk.injEq]
  norm_num

/-- Claim C3: if any paint step from buffer retrieval up to and
including the memmove byte copy (spec steps 2-6) raises, the painter
is never left begun-but-unended: `painter.begin` only runs after the
copy, so an early failure aborts the repaint with begin and end counts
equal. -/
theorem paint_context_balanced_on_early_failure (st : PaintStep)
    (h : st ∈ [PaintStep.getRamData, PaintStep.getSizes, PaintStep.reshapeBuf,
      PaintStep.reorientBuf, PaintStep.reallocImage, PaintStep.copyBytes]) :
    (runPaintSteps (some st) ⟨0, 0⟩ paintSteps).beginCount =
      (runPaintSteps (some st) ⟨0, 0⟩ paintSteps).endCount := by
  cases st <;> first | decide | exact absurd h (by decide)

theorem paint_context_balanced_on_early_failure_witness :
    PaintStep.copyBytes ∈ [PaintStep.getRamData, PaintStep.getSizes, PaintStep.reshapeBuf,
      PaintStep.reorientBuf, PaintStep.reallocImage, PaintStep.copyBytes] ∧
      (runPaintSteps (some PaintStep.copyBytes) ⟨0, 0⟩ paintSteps).beginCount =
        (runPaintSteps (some PaintStep.copyBytes) ⟨0, 0⟩ paintSteps).endCount :=
  ⟨by decide, paint_context_balanced_on_early_failure PaintStep.copyBytes (by decide)⟩

/-- Claim C2 counterexample: on the width 1 by height 2 source buffer
whose unique marker byte 9 fills source pixel (0, 0), the reoriented
output does not hold the marker's value at index (0, 0): transpose
followed by rot90 is a vertical flip, so the marker lands on the
bottom row. -/
theorem reorient_marker_not_top_left :
    reorient [9, 9, 9, 9, 0, 0, 0, 0] 2 1 0 0 0 ≠
      reshape3 [9, 9, 9, 9, 0, 0, 0, 0] 2 1 0 0 0 := by
  decide

/-- Claim C2 (amended): the reorientation maps output index (i, j) to
source pixel (H-1-i, j) — a vertical flip — so the marker pixel at
source index (0, 0) appears at the bottom-left output index (H-1, 0),
not at the top-left. -/
theorem reorient_is_vertical_flip (data : List Nat) (H W i j k : Nat) (hi : i < H) :
    reorient data H W i j k = reshape3 data H W (H - 1 - i) j k ∧
      reorient data H W (H - 1) j k = reshape3 data H W 0 j k := by
  refine ⟨rfl, ?_⟩
  show reshape3 data H W (H - 1 - (H - 1)) j k = reshape3 data H W 0 j k
  rw [Nat.sub_self]

theorem reorient_is_vertical_flip_witness :
    1 < 2 ∧
      (reorient [9, 9, 9, 9, 0, 0, 0, 0] 2 1 1 0 0 =
          reshape3 [9, 9, 9, 9, 0, 0, 0, 0] 2 1 (2 - 1 - 1) 0 0 ∧
        reorient [9, 9, 9, 9, 0, 0, 0, 0] 2 1 (2 - 1) 0 0 =
          reshape3 [9, 9, 9, 9, 0, 0, 0, 0] 2 1 0 0 0) :=
  ⟨by decide, reorient_is_vertical_flip [9, 9, 9, 9, 0, 0, 0, 0] 2 1 1 0 0 (by decide)⟩

/-- Claim C1 (code bug): two consecutive repaints from the same
unchanged width 1 by height 2 texture produce byte-identical image
contents, yet the second repaint still allocates a fresh QImage (the
generation counter increments) instead of reusing the buffer: the
reuse test compares `out_image.size()` — QSize(width, height) — with
the swapped `QSize(height, width)`, which can never match once the
image has been sized to QSize(width, height), contradicting the
source's own comment "recreate the QImage if the size changed". -/
theorem paint_unchanged_texture_reallocates :
    (paintEvent (paintEvent initOutImage tex1x2) tex1x2).bytes =
        (paintEvent initOutImage tex1x2).bytes ∧
      (paintEvent (paintEvent initOutImage tex1x2) tex1x2).gen =
        (paintEvent initOutImage tex1x2).gen + 1 := by decide

end QPanda3D
